import Mathlib

/-!
# Verification of `looptrace-loci-vis` data-shaping pipeline

Shallow embedding of the repository's core: the point-record model, the two
CSV table-parser variants, z-expansion, the file-set classifier, and the
layer builder (`src/looptrace_loci_vis/{point_record,points_parser,reader}.py`).

Modelling conventions:
* Python `float` values are modelled as `ℚ`.  The repository only ever parses
  decimal text, floors/truncates, compares and copies coordinates, so every
  operation it performs is exact on the rationals representing the parsed
  decimals; no rounding behaviour of IEEE doubles is relied upon by any claim.
* Python exceptions are modelled by `Except PyErr`, with one `PyErr`
  constructor per distinct error *kind* the code can raise (the claims only
  ever distinguish kinds, not message texts).
* File paths are modelled by their base names as `List Char`.
* The external `gertils` collaborators are modelled by their documented
  contracts: `TraceIdFrom0`/`TimepointFrom0` are validated non-negative
  integers, and `ImagePoint3D` holds image-pixel coordinates, validated
  non-negative at construction (image coordinates and z-slices number from 0,
  cf. the source comment "since numbering from 0" in `expand_along_z`).
-/

/-- The kinds of Python exception the embedded code can raise.  One
constructor per distinct raise site / error class used by the claims. -/
inductive PyErr where
  /-- `ValueError("Expected record of length {exp} but got {got}")` -/
  | lengthMismatch (expected got : Nat)
  /-- `IndexError` from subscripting a too-short list -/
  | indexError
  /-- `TypeError` from calling `PointRecord.__init__` (point_record.py's
  kw_only dataclass) without the required `region_time` keyword argument -/
  | missingRequiredArgument
  /-- `ValueError`/`TypeError` from coercing a field (`int(...)`, `float(...)`,
  or the gertils validation of a coerced value) -/
  | fieldParseError
  /-- `KeyError` from a missing named column in a headed row -/
  | missingColumn (key : String)
  /-- `ValueError("Max z must be at least as great as central z ...")` -/
  | maxZBelowCenter (zCenter : Int)
  /-- `RuntimeError("Number of points generated from single spot center isn't
  as expected! ...")` -/
  | internalCountMismatch
  /-- `TypeError("failCode is not str, but ...")` -/
  | nonStringFailCode
  /-- `RuntimeError("Extra QC status/path pairs! ...")` -/
  | extraStatusPairs
  /-- `RuntimeError("Nonsense! After finding 2 QC files among 3 files ...")` -/
  | leftoverCountMismatch (n : Nat)
  /-- `ValueError("Despite undertaking parse, file from which QC status could
  not be parsed was encountered ...")` -/
  | qcStatusUnknown
  /-- `ValueError("max() arg is an empty sequence")` -/
  | maxOfEmptySequence
deriving DecidableEq, Repr

instance {ε α : Type} [DecidableEq ε] [DecidableEq α] : DecidableEq (Except ε α) :=
  fun a b =>
    match a, b with
    | .ok x, .ok y =>
        if h : x = y then .isTrue (by rw [h]) else
          .isFalse (by intro hc; cases hc; exact h rfl)
    | .error x, .error y =>
        if h : x = y then .isTrue (by rw [h]) else
          .isFalse (by intro hc; cases hc; exact h rfl)
    | .ok _, .error _ => .isFalse (by intro hc; cases hc)
    | .error _, .ok _ => .isFalse (by intro hc; cases hc)

/-- Numeric value of a decimal digit character, `none` for non-digits
(models the digit handling inside Python `int`/`float` text parsing). -/
def digitVal (c : Char) : Option Nat :=
  if '0' ≤ c ∧ c ≤ '9' then some (c.toNat - 48) else none

/-- Value of a non-empty all-digit string of characters. -/
def digitsVal : List Char → Option Nat
  | [] => none
  | l => l.foldl (fun acc c => do
      let a ← acc
      let d ← digitVal c
      pure (a * 10 + d)) (some 0)

/-- Python `int(s)` on the decimal text this pipeline feeds it: an optional
sign followed by digits. -/
def pyInt (s : String) : Option Int :=
  match s.data with
  | '-' :: rest => (digitsVal rest).map (fun n => -(n : Int))
  | '+' :: rest => (digitsVal rest).map (fun n => (n : Int))
  | l => (digitsVal l).map (fun n => (n : Int))

/-- Python `float(s)` on the decimal text this pipeline feeds it: an optional
sign, an integer part, and an optional fractional part, read exactly into `ℚ`. -/
def pyFloat (s : String) : Option ℚ :=
  let core : List Char → Option ℚ := fun l =>
    let intPart := l.takeWhile (fun c => decide ('0' ≤ c ∧ c ≤ '9'))
    let rest := l.dropWhile (fun c => decide ('0' ≤ c ∧ c ≤ '9'))
    match rest with
    | [] => (digitsVal intPart).map (fun n => (n : ℚ))
    | '.' :: frac =>
        if frac.all (fun c => decide ('0' ≤ c ∧ c ≤ '9')) ∧ (intPart ≠ [] ∨ frac ≠ []) then
          let ip : ℚ := ((digitsVal intPart).getD 0 : Nat)
          let fp : ℚ := ((digitsVal frac).getD 0 : Nat)
          some (ip + fp / (10 : ℚ) ^ frac.length)
        else none
    | _ => none
  match s.data with
  | '-' :: rest => (core rest).map (fun q => -q)
  | '+' :: rest => core rest
  | l => core l

/-- Python `int(q)` applied to a numeric value: truncation toward zero. -/
def pyTrunc (q : ℚ) : Int := if 0 ≤ q then ⌊q⌋ else ⌈q⌉

/-- Subscripting a Python list: `l[i]`, raising `IndexError` out of range. -/
def pyIndex {α : Type} (l : List α) (i : Nat) : Except PyErr α :=
  match l[i]? with
  | some a => .ok a
  | none => .error .indexError

/-- Lift a field coercion (`int(...)` / `float(...)`) into the error monad:
an unparseable field raises. -/
def coerceField {α : Type} (o : Option α) : Except PyErr α :=
  match o with
  | some a => .ok a
  | none => .error .fieldParseError

/-- `gertils.geometry.ImagePoint3D` (external collaborator): an image-pixel
position.  Coordinates are modelled as exact rationals. -/
structure ImagePoint3D where
  x : ℚ
  y : ℚ
  z : ℚ
deriving DecidableEq, Repr

/-- Construction of `ImagePoint3D` as performed by the parsers:
the external library validates that image coordinates are admissible
(non-negative) pixel positions, raising otherwise. -/
def mkImagePoint3D (z y x : ℚ) : Except PyErr ImagePoint3D :=
  if 0 ≤ x ∧ 0 ≤ y ∧ 0 ≤ z then .ok ⟨x, y, z⟩ else .error .fieldParseError

namespace Reader

/-- `reader.PointRecord` (reader.py, lines 273-323): trace id, timepoint and a
3-D point.  `TraceIdFrom0`/`TimepointFrom0` are validated non-negative, hence
`Nat` fields. -/
structure PointRecord where
  trace_id : Nat
  timepoint : Nat
  point : ImagePoint3D
deriving DecidableEq, Repr

/-- `PointRecord.get_z_coordinate` -/
def PointRecord.get_z_coordinate (r : PointRecord) : ℚ := r.point.z

/-- `PointRecord.flatten` (reader.py): `[trace_id, timepoint, z, y, x]`. -/
def PointRecord.flatten (r : PointRecord) : List ℚ :=
  [(r.trace_id : ℚ), (r.timepoint : ℚ), r.point.z, r.point.y, r.point.x]

/-- `PointRecord.with_new_z`: replace the point with a copy whose z is the
given integer. -/
def PointRecord.with_new_z (r : PointRecord) (z : Int) : PointRecord :=
  { r with point := ⟨r.point.x, r.point.y, (z : ℚ)⟩ }

/-- `PointRecord.with_truncated_z`: floor the z coordinate. -/
def PointRecord.with_truncated_z (r : PointRecord) : PointRecord :=
  r.with_new_z ⌊r.point.z⌋

/-- `reader.expand_along_z` (reader.py, lines 338-367): materialize one record
per integer z-slice `0..z_max`, flagging the true center. -/
def expand_along_z (r : PointRecord) (z_max : ℚ) :
    Except PyErr (List PointRecord × List Bool) :=
  let r' := r.with_truncated_z
  let z_center : Int := pyTrunc r'.point.z
  let z_max_i : Int := ⌊z_max⌋
  if z_max_i < z_center then .error (.maxZBelowCenter z_center)
  else
    -- predecessors: range(z_center); successors: range(z_center+1, z_max+1)
    let predecessors := (List.range z_center.toNat).map
      (fun i : Nat => (r'.with_new_z (i : Int), false))
    let successors := (List.range (z_max_i - z_center).toNat).map
      (fun j : Nat => (r'.with_new_z (z_center + 1 + (j : Int)), false))
    let pairs := predecessors ++ [(r', true)] ++ successors
    let points := pairs.map Prod.fst
    let flags := pairs.map Prod.snd
    if (points.length : Int) ≠ 1 + z_max_i then .error .internalCountMismatch
    else .ok (points, flags)

/-- `gertils.TraceIdFrom0` / `TimepointFrom0` (external collaborators):
wrappers of validated non-negative integers; construction from a negative
value raises. -/
def fromZeroIndex (n : Int) : Except PyErr Nat :=
  if 0 ≤ n then .ok n.toNat else .error .fieldParseError

/-- `reader.parse_simple_record` (reader.py, lines 250-262): positional parse
of one CSV row into a `PointRecord`, checking the field count first. -/
def parse_simple_record (r : List String) (exp_num_fields : Nat) :
    Except PyErr PointRecord := do
  if r.length ≠ exp_num_fields then
    .error (.lengthMismatch exp_num_fields r.length)
  else do
    let trace ← fromZeroIndex (← coerceField (pyInt (← pyIndex r 0)))
    let timepoint ← fromZeroIndex (← coerceField (pyInt (← pyIndex r 1)))
    let z ← coerceField (pyFloat (← pyIndex r 2))
    let y ← coerceField (pyFloat (← pyIndex r 3))
    let x ← coerceField (pyFloat (← pyIndex r 4))
    let point ← mkImagePoint3D z y x
    .ok ⟨trace, timepoint, point⟩

/-- Python `max(...)` over a sequence of values; raises on an empty sequence. -/
def pyMax : List ℚ → Except PyErr ℚ
  | [] => .error .maxOfEmptySequence
  | h :: t => .ok (t.foldl max h)

/-- `reader.parse_passed` (reader.py, lines 183-195): parse all QC-pass rows,
expand each along z up to the maximum z among them, and attach per-point
marker sizes (1.5 at centers, 1.0 elsewhere). -/
def parse_passed (rows : List (List String)) :
    Except PyErr (List PointRecord × List Bool × List ℚ) := do
  let records ← rows.mapM (fun r => parse_simple_record r 5)
  let max_z ← pyMax (records.map (·.get_z_coordinate))
  let expanded ← records.mapM (fun rec => expand_along_z rec max_z)
  let points := expanded.flatMap Prod.fst
  let center_flags := expanded.flatMap Prod.snd
  let sizes := center_flags.map (fun is_center => if is_center then (3/2 : ℚ) else 1)
  .ok (points, center_flags, sizes)

/-- The parameter mapping of the QC-fail layer (reader.py, lines 228-235):
`{"size": 0, "text": {"string": "{failCodes}", "color": DEEP_SKY_BLUE},
"properties": {"failCodes": codes}}`. -/
structure FailLayerParams where
  size : ℚ
  textString : String
  textColor : String
  failCodes : List String
deriving DecidableEq, Repr

/-- Colorblind-friendly constant `DEEP_SKY_BLUE` (reader.py, line 36). -/
def DEEP_SKY_BLUE : String := "#0C7BDC"

/-- Colorblind-friendly constant `GOLDENROD` (reader.py, line 37). -/
def GOLDENROD : String := "#FFC20A"

/-- One iteration of the row loop of `reader.parse_failed` (reader.py,
lines 211-218): `row[InputFileColumn.QC.get]` is subscripted *before* the
record parse, and an `IndexError` there is logged and re-raised. -/
def parse_failed_row (row : List String) :
    Except PyErr (PointRecord × String) := do
  let qc ← pyIndex row 5
  let rec' ← parse_simple_record row 6
  .ok (rec', qc)

/-- `reader.parse_failed` (reader.py, lines 207-236): parse all QC-fail rows,
expand each along z, and build the fail-layer parameter mapping with a zero
size and the per-point fail codes. -/
def parse_failed (rows : List (List String)) :
    Except PyErr (List PointRecord × List Bool × FailLayerParams) := do
  let record_qc_pairs ← rows.mapM parse_failed_row
  let max_z ← pyMax (record_qc_pairs.map (fun p => p.1.get_z_coordinate))
  let expanded ← record_qc_pairs.mapM (fun p => do
    let e ← expand_along_z p.1 max_z
    .ok (e.1, e.2, List.replicate e.1.length p.2))
  let points := expanded.flatMap (fun e => e.1)
  let center_flags := expanded.flatMap (fun e => e.2.1)
  let codes := expanded.flatMap (fun e => e.2.2)
  .ok (points, center_flags,
    { size := 0, textString := "{failCodes}", textColor := DEEP_SKY_BLUE,
      failCodes := codes })

/-- `reader.QCStatus` (reader.py, lines 40-61): binary QC classification. -/
inductive QCStatus where
  | fail
  | pass
deriving DecidableEq, Repr

/-- `QCStatus.filename_extension`: `".qc" + value + ".csv"`. -/
def QCStatus.filename_extension : QCStatus → List Char
  | .fail => (".qcfail.csv").data
  | .pass => (".qcpass.csv").data

/-- `QCStatus.from_csv_name` (reader.py, lines 46-52): first enum member (in
declaration order FAIL, PASS) whose filename extension the name ends with. -/
def QCStatus.from_csv_name (fn : List Char) : Option QCStatus :=
  if (QCStatus.fail.filename_extension).isSuffixOf fn then some .fail
  else if (QCStatus.pass.filename_extension).isSuffixOf fn then some .pass
  else none

/-- The layer value built by `build_single_file_points_layer`: the flattened
rows, the merged parameter mapping, and the `"points"` tag (fixed by the
return shape, so not carried as data). -/
structure PointsLayer where
  data : List (List ℚ)
  edge_width : ℚ
  edge_width_is_relative : Bool
  n_dimensional : Bool
  edge_color : String
  face_color : String
  symbol : List String
  sizeParam : List ℚ ⊕ FailLayerParams
deriving DecidableEq, Repr

/-- `reader.build_single_file_points_layer` (reader.py, lines 135-171), with
the whole-file CSV read abstracted into the given `rows`.  Dispatches on the
QC status inferred from the file name, parses the rows, logs a (behaviourally
inert) warning if no records were parsed, and assembles the layer. -/
def build_single_file_points_layer (path : List Char) (rows : List (List String)) :
    Except PyErr PointsLayer :=
  match QCStatus.from_csv_name path with
  | some .pass => do
      let r ← parse_passed rows
      .ok { data := r.1.map PointRecord.flatten
            edge_width := 1/10, edge_width_is_relative := true, n_dimensional := false
            edge_color := GOLDENROD, face_color := GOLDENROD
            symbol := r.2.1.map (fun is_center => if is_center then ("*") else ("o"))
            sizeParam := .inl r.2.2 }
  | some .fail => do
      let r ← parse_failed rows
      .ok { data := r.1.map PointRecord.flatten
            edge_width := 1/10, edge_width_is_relative := true, n_dimensional := false
            edge_color := DEEP_SKY_BLUE, face_color := DEEP_SKY_BLUE
            symbol := r.2.1.map (fun is_center => if is_center then ("*") else ("o"))
            sizeParam := .inr r.2.2 }
  | none => .error .qcStatusUnknown

end Reader

namespace PointsParser

/-- `point_record.PointRecord` (point_record.py, lines 25-44): the newer
record model with a `region_time` field.  All four fields are required
keyword arguments of the frozen dataclass. -/
structure PointRecord where
  trace_id : Nat
  region_time : Nat
  timepoint : Nat
  point : ImagePoint3D
deriving DecidableEq, Repr

/-- `PointRecord.flatten` (point_record.py, lines 46-56):
`[trace_id, region_time, timepoint, z, y, x]`. -/
def PointRecord.flatten (r : PointRecord) : List ℚ :=
  [(r.trace_id : ℚ), (r.region_time : ℚ), (r.timepoint : ℚ),
   r.point.z, r.point.y, r.point.x]

/-- Calling `PointRecord(...)` (the `__init__` of point_record.py's kw_only
dataclass): each argument models one keyword that the call site may or may
not supply; omitting any required keyword raises `TypeError`. -/
def PointRecord.construct (trace_id region_time timepoint : Option Nat)
    (point : Option ImagePoint3D) : Except PyErr PointRecord :=
  match trace_id, region_time, timepoint, point with
  | some t, some rt, some tp, some p => .ok ⟨t, rt, tp, p⟩
  | _, _, _, _ => .error .missingRequiredArgument

/-- `HeadlessTraceTimePointParser._parse_single_record` (points_parser.py,
lines 117-129): length check first, then positional field coercions, then the
`PointRecord(trace_id=..., timepoint=..., point=...)` construction — which
supplies no `region_time` keyword. -/
def headless_parse_single_record (r : List String) (exp_len : Nat) :
    Except PyErr PointRecord := do
  if r.length ≠ exp_len then
    .error (.lengthMismatch exp_len r.length)
  else do
    let trace ← Reader.fromZeroIndex (← coerceField (pyInt (← pyIndex r 0)))
    let timepoint ← Reader.fromZeroIndex (← coerceField (pyInt (← pyIndex r 1)))
    let z ← coerceField (pyFloat (← pyIndex r 2))
    let y ← coerceField (pyFloat (← pyIndex r 3))
    let x ← coerceField (pyFloat (← pyIndex r 4))
    let point ← mkImagePoint3D z y x
    PointRecord.construct (some trace) none (some timepoint) (some point)

/-- `HeadlessTraceTimePointParser._parse_single_qcpass_record`:
`_parse_single_record` with expected length `_number_of_columns - 1 = 5`. -/
def headless_parse_qcpass_record (r : List String) : Except PyErr PointRecord :=
  headless_parse_single_record r 5

/-- `HeadlessTraceTimePointParser._parse_single_qcfail_record`:
`_parse_single_record` with expected length 6, then the QC column. -/
def headless_parse_qcfail_record (r : List String) :
    Except PyErr (PointRecord × String) := do
  let pt_rec ← headless_parse_single_record r 6
  let fail_code ← pyIndex r 5
  .ok (pt_rec, fail_code)

/-- `IterativePointsParser.parse_all_qcpass` (points_parser.py, lines 57-59)
for the headless parser, over the already-generated CSV rows. -/
def headless_parse_all_qcpass (rows : List (List String)) :
    Except PyErr (List PointRecord) :=
  rows.mapM headless_parse_qcpass_record

/-- `IterativePointsParser.parse_all_qcfail` (points_parser.py, lines 61-63)
for the headless parser, over the already-generated CSV rows. -/
def headless_parse_all_qcfail (rows : List (List String)) :
    Except PyErr (List (PointRecord × String)) :=
  rows.mapM headless_parse_qcfail_record

/-- A value stored in a headed (pandas) row: the pipeline only ever meets
strings and numbers. -/
inductive PyVal where
  | str (s : String)
  | num (q : ℚ)
deriving DecidableEq, Repr

/-- `record[key]` on a headed row: the value at a named column, `KeyError`
when absent. -/
def headedGet (record : List (String × PyVal)) (key : String) : Except PyErr PyVal :=
  match record.find? (fun p => p.1 == key) with
  | some p => .ok p.2
  | none => .error (.missingColumn key)

/-- Python `int(v)` on a cell value: numeric values truncate toward zero,
strings parse as decimal integers. -/
def pyIntOfVal : PyVal → Option Int
  | .num q => some (pyTrunc q)
  | .str s => pyInt s

/-- Python `float(v)` on a cell value. -/
def pyFloatOfVal : PyVal → Option ℚ
  | .num q => some q
  | .str s => pyFloat s

/-- `HeadedTraceTimePointParser._parse_single_qcpass_record` (points_parser.py,
lines 76-84): named-column reads, then the `PointRecord` construction — which
supplies no `region_time` keyword. -/
def headed_parse_qcpass_record (record : List (String × PyVal)) :
    Except PyErr PointRecord := do
  let trace ← Reader.fromZeroIndex (← coerceField (pyIntOfVal (← headedGet record ("traceIndex"))))
  let timepoint ← Reader.fromZeroIndex (← coerceField (pyIntOfVal (← headedGet record ("timeIndex"))))
  let z ← coerceField (pyFloatOfVal (← headedGet record ("z")))
  let y ← coerceField (pyFloatOfVal (← headedGet record ("y")))
  let x ← coerceField (pyFloatOfVal (← headedGet record ("x")))
  let point ← mkImagePoint3D z y x
  PointRecord.construct (some trace) none (some timepoint) (some point)

/-- The fail-code handling of `_parse_single_qcfail_record` (points_parser.py,
lines 90-93): `isinstance(fail_code, str)` is *checked*, raising `TypeError`
for non-strings; `str(...)` is then applied to the (already string) value. -/
def validateFailCode : PyVal → Except PyErr String
  | .str s => .ok s
  | .num _ => .error .nonStringFailCode

/-- `HeadedTraceTimePointParser._parse_single_qcfail_record` (points_parser.py,
lines 86-94): parse as a pass record, then pull and validate `failCode`. -/
def headed_parse_qcfail_record (record : List (String × PyVal)) :
    Except PyErr (PointRecord × String) := do
  let pt_rec ← headed_parse_qcpass_record record
  let fail_code ← validateFailCode (← headedGet record ("failCode"))
  .ok (pt_rec, fail_code)

end PointsParser

namespace Reader

/-- A Python `dict` assignment `d[k] = v` on an association list with unique
keys: overwrite the existing entry or append a new one. -/
def dictSet (d : List (QCStatus × List Char)) (k : QCStatus) (v : List Char) :
    List (QCStatus × List Char) :=
  if d.any (fun p => p.1 == k) then
    d.map (fun p => if p.1 == k then (k, v) else p)
  else d ++ [(k, v)]

/-- `d.get(k)`-style lookup on the status dictionary. -/
def dictFind (d : List (QCStatus × List Char)) (k : QCStatus) : Option (List Char) :=
  (d.find? (fun p => p.1 == k)).map (fun p => p.2)

/-- `d.pop(k)`: drop the entry for `k`. -/
def dictErase (d : List (QCStatus × List Char)) (k : QCStatus) :
    List (QCStatus × List Char) :=
  d.filter (fun p => !(p.1 == k))

/-- The status-dictionary build loop of `get_reader` (reader.py, lines
100-104): `for fp in files: qc = QCStatus.from_csv_path(fp); if qc is not
None: path_by_status[qc] = fp`. -/
def buildStatusDict (files : List (List Char)) : List (QCStatus × List Char) :=
  files.foldl (fun d fp =>
    match QCStatus.from_csv_name fp with
    | some qc => dictSet d qc fp
    | none => d) []

/-- `pathlib`'s `.suffix` of a file name: the final `"."`-headed extension,
empty when the name has no dot, starts with its only dot, or ends in it. -/
def pySuffix (name : List Char) : List Char :=
  match (((name.enum).filter (fun p => p.2 == '.')).map (fun p => p.1)).getLast? with
  | some i => if 0 < i ∧ i < name.length - 1 then name.drop i else []
  | none => []

/-- The result of a successful classification: the volume path and the two
table paths (the data `get_reader`'s returned closure parses). -/
structure FileSet where
  zarrPath : List Char
  failPath : List Char
  passPath : List Char
deriving DecidableEq, Repr

/-- `reader.get_reader` (reader.py, lines 86-132) downstream of the external
`find_multiple_paths_by_fov` call, whose grouping result is the `path_by_fov`
argument and whose companion `get_fov_sort_key` is the `sortKey` argument
(both external `gertils` collaborators).  Returns `none` for a soft-skipped
directory, `some` for a classified one, and `.error` for the two internal
`RuntimeError` raises. -/
def get_reader_core (sortKey : List Char → Option Nat)
    (path_by_fov : List (Nat × List (List Char))) :
    Except PyErr (Option FileSet) :=
  match path_by_fov with
  | [(fov, files)] =>
    if files.length ≠ 3 then .ok none
    else
      let path_by_status := buildStatusDict files
      match dictFind path_by_status .fail, dictFind path_by_status .pass with
      | some fail_path, some pass_path =>
        let remaining := dictErase (dictErase path_by_status .fail) .pass
        if remaining.length ≠ 0 then .error .extraStatusPairs
        else
          let left_to_match := files.filter
            (fun f => !(f == fail_path) && !(f == pass_path))
          match left_to_match with
          | [potential_zarr] =>
            if pySuffix potential_zarr ≠ (".zarr").data ∨ sortKey potential_zarr ≠ some fov
            then .ok none
            else .ok (some ⟨potential_zarr, fail_path, pass_path⟩)
          | _ => .error (.leftoverCountMismatch left_to_match.length)
      | _, _ => .ok none
  | _ => .ok none

end Reader

/-- Spec-side definition for the round-trip claim (follows the spec's words,
not the code): the numeric reading of an old-schema row's fields in the
schema's order `[traceId, timepoint, z, y, x]`. -/
def specNumericReadingOldSchema (row : List String) : Option (List ℚ) :=
  match row with
  | [a, b, c, d, e] => do
      let t ← pyInt a
      let tp ← pyInt b
      let z ← pyFloat c
      let y ← pyFloat d
      let x ← pyFloat e
      pure [(t : ℚ), (tp : ℚ), z, y, x]
  | _ => none

namespace Reader

lemma pyTrunc_intCast (n : Int) : pyTrunc (n : ℚ) = n := by
  unfold pyTrunc
  split <;> simp

lemma with_truncated_z_def (r : PointRecord) :
    r.with_truncated_z =
      ⟨r.trace_id, r.timepoint, ⟨r.point.x, r.point.y, (⌊r.point.z⌋ : ℚ)⟩⟩ := rfl

lemma with_new_z_def (r : PointRecord) (z : Int) :
    r.with_new_z z = ⟨r.trace_id, r.timepoint, ⟨r.point.x, r.point.y, (z : ℚ)⟩⟩ := rfl

lemma range_split (zC k : ℕ) :
    List.range (zC + 1 + k) =
      List.range zC ++ [zC] ++ (List.range k).map (fun j => zC + 1 + j) := by
  rw [List.range_add, List.range_add]
  simp [List.range_succ]

lemma with_truncated_eq_with_new_z (r : PointRecord) (hz : 0 ≤ r.point.z) :
    r.with_truncated_z.with_new_z (⌊r.point.z⌋.toNat : Int) = r.with_truncated_z := by
  rw [with_truncated_z_def, with_new_z_def]
  simp [Int.toNat_of_nonneg (Int.floor_nonneg.mpr hz)]

lemma expand_along_z_eq (r : PointRecord) (z_max : ℚ)
    (hz : 0 ≤ r.point.z) (h : ⌊r.point.z⌋ ≤ ⌊z_max⌋) :
    expand_along_z r z_max =
      .ok ((List.range (⌊z_max⌋.toNat + 1)).map
             (fun i : Nat => r.with_truncated_z.with_new_z (i : Int)),
           (List.range (⌊z_max⌋.toNat + 1)).map
             (fun i : Nat => decide (i = ⌊r.point.z⌋.toNat))) := by
  have hzC : (0 : Int) ≤ ⌊r.point.z⌋ := Int.floor_nonneg.mpr hz
  have hzM : (0 : Int) ≤ ⌊z_max⌋ := le_trans hzC h
  have hzpt : (r.with_truncated_z).point.z = ((⌊r.point.z⌋ : Int) : ℚ) := rfl
  unfold expand_along_z
  dsimp only
  rw [hzpt, pyTrunc_intCast, if_neg (by omega)]
  have hcnt : (⌊z_max⌋ - ⌊r.point.z⌋).toNat = ⌊z_max⌋.toNat - ⌊r.point.z⌋.toNat := by omega
  rw [if_neg (by
    simp only [List.length_map, List.length_append, List.length_cons,
      List.length_nil, List.length_range, hcnt]
    push_cast
    omega)]
  set zC : ℕ := ⌊r.point.z⌋.toNat with hzCdef
  set zM : ℕ := ⌊z_max⌋.toNat with hzMdef
  have hCM : zC ≤ zM := by omega
  have hrange : List.range (zM + 1) = List.range (zC + 1 + (zM - zC)) := by
    congr 1
    omega
  congr 1
  simp only [Prod.mk.injEq]
  refine ⟨?_, ?_⟩
  · -- points component
    rw [hrange, range_split]
    simp only [List.map_append, List.map_map, List.map_cons, List.map_nil, hcnt]
    have h1 : (List.range zC).map
        (Prod.fst ∘ fun i : Nat => (r.with_truncated_z.with_new_z (i : Int), false)) =
        (List.range zC).map (fun i : Nat => r.with_truncated_z.with_new_z (i : Int)) :=
      List.map_congr_left (fun i _ => rfl)
    have h2 : (List.range (zM - zC)).map
        (Prod.fst ∘ fun j : Nat =>
          (r.with_truncated_z.with_new_z (⌊r.point.z⌋ + 1 + (j : Int)), false)) =
        (List.range (zM - zC)).map
          ((fun i : Nat => r.with_truncated_z.with_new_z (i : Int)) ∘
            fun j : Nat => zC + 1 + j) := by
      apply List.map_congr_left
      intro j _
      simp only [Function.comp_apply]
      congr 1
      push_cast [hzCdef, Int.toNat_of_nonneg hzC]
      ring
    rw [h1, h2, with_truncated_eq_with_new_z r hz]
  · -- flags component
    rw [hrange, range_split]
    simp only [List.map_append, List.map_map, List.map_cons, List.map_nil, hcnt]
    have h1 : (List.range zC).map
        (Prod.snd ∘ fun i : Nat => (r.with_truncated_z.with_new_z (i : Int), false)) =
        (List.range zC).map (fun i : Nat => decide (i = zC)) := by
      apply List.map_congr_left
      intro i hi
      simp only [List.mem_range] at hi
      simp [Function.comp_apply, Nat.ne_of_lt hi]
    have h2 : (List.range (zM - zC)).map
        (Prod.snd ∘ fun j : Nat =>
          (r.with_truncated_z.with_new_z (⌊r.point.z⌋ + 1 + (j : Int)), false)) =
        (List.range (zM - zC)).map
          ((fun i : Nat => decide (i = zC)) ∘ fun j : Nat => zC + 1 + j) := by
      apply List.map_congr_left
      intro j _
      simp only [Function.comp_apply]
      simp
      omega
    rw [h1, h2]
    simp

end Reader

namespace Reader

lemma count_true_flags (zC n : ℕ) (h : zC < n) :
    ((List.range n).map (fun i : Nat => decide (i = zC))).count true = 1 := by
  rw [List.count, List.countP_map]
  have : List.countP ((fun b => b == true) ∘ fun i : Nat => decide (i = zC))
      (List.range n) = List.countP (· == zC) (List.range n) := by
    apply List.countP_congr
    intro i _
    simp [Function.comp_apply]
  rw [this]
  exact List.count_eq_one_of_mem (List.nodup_range n) (List.mem_range.mpr h)

end Reader

/-- **C1.** For every point record `r` and every `z_max` with
`⌊z_max⌋ ≥ zCenter` (where `zCenter = ⌊r.z⌋`), `expand_along_z` returns
`⌊z_max⌋ + 1` record/flag pairs, exactly one flag is true, the flagged center
entry is `r.with_truncated_z` (the record with z truncated to `zCenter`), and
the record at position `i` carries z-coordinate `i` for every slice
`0 ≤ i ≤ ⌊z_max⌋`.  (Point records hold non-negative image coordinates,
whence the hypothesis `0 ≤ r.point.z`.) -/
theorem c1_expand_along_z_pillar (r : Reader.PointRecord) (z_max : ℚ)
    (hz : 0 ≤ r.point.z) (h : ⌊r.point.z⌋ ≤ ⌊z_max⌋) :
    ∃ points flags,
      Reader.expand_along_z r z_max = .ok (points, flags) ∧
      (points.length : Int) = ⌊z_max⌋ + 1 ∧
      flags.length = points.length ∧
      flags.count true = 1 ∧
      points[⌊r.point.z⌋.toNat]? = some r.with_truncated_z ∧
      flags[⌊r.point.z⌋.toNat]? = some true ∧
      r.with_truncated_z.point.z = (⌊r.point.z⌋ : ℚ) ∧
      ∀ (i : Nat) (p : Reader.PointRecord), points[i]? = some p → p.point.z = (i : ℚ) := by
  have hzC : (0 : Int) ≤ ⌊r.point.z⌋ := Int.floor_nonneg.mpr hz
  have hzM : (0 : Int) ≤ ⌊z_max⌋ := le_trans hzC h
  have hCM : ⌊r.point.z⌋.toNat < ⌊z_max⌋.toNat + 1 := by omega
  refine ⟨_, _, Reader.expand_along_z_eq r z_max hz h, ?_, ?_, ?_, ?_, ?_, rfl, ?_⟩
  · simp only [List.length_map, List.length_range]
    omega
  · simp
  · exact Reader.count_true_flags _ _ hCM
  · rw [List.getElem?_map, List.getElem?_range hCM]
    simp only [Option.map_some']
    rw [Reader.with_truncated_eq_with_new_z r hz]
  · rw [List.getElem?_map, List.getElem?_range hCM]
    simp
  · intro i p hp
    have hi : i < ⌊z_max⌋.toNat + 1 := by
      by_contra hc
      rw [List.getElem?_map, List.getElem?_eq_none (by simpa using Nat.le_of_not_lt hc)] at hp
      simp at hp
    rw [List.getElem?_map, List.getElem?_range hi] at hp
    simp only [Option.map_some', Option.some.injEq] at hp
    rw [← hp]
    simp [Reader.PointRecord.with_new_z]

/-- Witness for C1 at the record `(trace 7, time 3, point (1, 2, 5/2))` and
`z_max = 21/5`. -/
theorem c1_expand_along_z_pillar_witness :
    (0 : ℚ) ≤ (5/2 : ℚ) ∧ ⌊(5/2 : ℚ)⌋ ≤ ⌊(21/5 : ℚ)⌋ ∧
    (∃ points flags,
      Reader.expand_along_z ⟨7, 3, ⟨1, 2, 5/2⟩⟩ (21/5) = .ok (points, flags) ∧
      (points.length : Int) = ⌊(21/5 : ℚ)⌋ + 1 ∧
      flags.length = points.length ∧
      flags.count true = 1 ∧
      points[⌊((5:ℚ)/2 : ℚ)⌋.toNat]? = some (Reader.PointRecord.with_truncated_z ⟨7, 3, ⟨1, 2, 5/2⟩⟩) ∧
      flags[⌊((5:ℚ)/2 : ℚ)⌋.toNat]? = some true ∧
      (Reader.PointRecord.with_truncated_z ⟨7, 3, ⟨1, 2, 5/2⟩⟩).point.z = (⌊((5:ℚ)/2 : ℚ)⌋ : ℚ) ∧
      ∀ (i : Nat) (p : Reader.PointRecord), points[i]? = some p → p.point.z = (i : ℚ)) :=
  ⟨by norm_num,
   by with_unfolding_all decide,
   c1_expand_along_z_pillar ⟨7, 3, ⟨1, 2, 5/2⟩⟩ (21/5) (by norm_num)
     (by with_unfolding_all decide)⟩

/-- **C9.** For every point record `r` and every `z_max < zCenter` (where
`zCenter = ⌊r.z⌋`), `expand_along_z` fails with the max-z-below-center
`ValueError` and produces no result. -/
theorem c9_expand_along_z_below_center_fails (r : Reader.PointRecord) (z_max : ℚ)
    (_hz : 0 ≤ r.point.z) (h : z_max < (⌊r.point.z⌋ : ℚ)) :
    Reader.expand_along_z r z_max = .error (.maxZBelowCenter ⌊r.point.z⌋) := by
  unfold Reader.expand_along_z
  dsimp only
  rw [show (r.with_truncated_z).point.z = ((⌊r.point.z⌋ : Int) : ℚ) from rfl]
  rw [Reader.pyTrunc_intCast, if_pos (Int.floor_lt.mpr h)]

/-- Witness for C9 at the record `(trace 7, time 3, point (1, 2, 5/2))` and
`z_max = 1`. -/
theorem c9_expand_along_z_below_center_fails_witness :
    (0 : ℚ) ≤ (5/2 : ℚ) ∧ (1 : ℚ) < (⌊(5/2 : ℚ)⌋ : ℚ) ∧
    Reader.expand_along_z ⟨7, 3, ⟨1, 2, 5/2⟩⟩ 1 = .error (.maxZBelowCenter ⌊(5/2 : ℚ)⌋) :=
  ⟨by norm_num,
   by with_unfolding_all decide,
   c9_expand_along_z_below_center_fails ⟨7, 3, ⟨1, 2, 5/2⟩⟩ 1 (by norm_num)
     (by with_unfolding_all decide)⟩

lemma bind_isOk_false {ε α β : Type} (x : Except ε α) (f : α → Except ε β)
    (h : ∀ a, (f a).isOk = false) : (x >>= f).isOk = false := by
  cases x with
  | error e => rfl
  | ok a => exact h a

lemma bind_ok {ε α β : Type} {x : Except ε α} {f : α → Except ε β} {b : β}
    (h : (x >>= f) = .ok b) : ∃ a, x = .ok a ∧ f a = .ok b := by
  cases x with
  | error e => cases h
  | ok a => exact ⟨a, rfl, h⟩

lemma isOk_false_iff {ε α : Type} {x : Except ε α} :
    x.isOk = false ↔ ∃ e, x = .error e := by
  cases x with
  | error e => simp [Except.isOk, Except.toBool]
  | ok a => simp [Except.isOk, Except.toBool]

namespace PointsParser

lemma construct_without_region_time (t tp : Option Nat) (p : Option ImagePoint3D) :
    PointRecord.construct t none tp p = .error .missingRequiredArgument := by
  cases t <;> cases tp <;> cases p <;> rfl

lemma headless_parse_single_record_isOk_false (r : List String) (exp_len : Nat) :
    (headless_parse_single_record r exp_len).isOk = false := by
  unfold headless_parse_single_record
  split
  · rfl
  · apply bind_isOk_false; intro a
    apply bind_isOk_false; intro b
    apply bind_isOk_false; intro c
    apply bind_isOk_false; intro d
    apply bind_isOk_false; intro e
    apply bind_isOk_false; intro f
    apply bind_isOk_false; intro g
    apply bind_isOk_false; intro i
    apply bind_isOk_false; intro j
    apply bind_isOk_false; intro k
    apply bind_isOk_false; intro l
    apply bind_isOk_false; intro m
    apply bind_isOk_false; intro n
    rw [construct_without_region_time]
    rfl

lemma headed_parse_qcpass_record_isOk_false (record : List (String × PyVal)) :
    (headed_parse_qcpass_record record).isOk = false := by
  unfold headed_parse_qcpass_record
  apply bind_isOk_false; intro a
  apply bind_isOk_false; intro b
  apply bind_isOk_false; intro c
  apply bind_isOk_false; intro d
  apply bind_isOk_false; intro e
  apply bind_isOk_false; intro f
  apply bind_isOk_false; intro g
  apply bind_isOk_false; intro i
  apply bind_isOk_false; intro j
  apply bind_isOk_false; intro k
  apply bind_isOk_false; intro l
  apply bind_isOk_false; intro m
  apply bind_isOk_false; intro n
  rw [construct_without_region_time]
  rfl

end PointsParser

/-- **C2.** The claim says parsing a well-formed row always constructs a
`PointRecord`; in fact neither parser variant can ever construct one: the
construction call in `points_parser.py` omits the required `region_time`
keyword of `point_record.PointRecord`, so every row — including the
repository's own smoke-test rows — raises `TypeError`. -/
theorem c2_parse_never_constructs_record :
    (∀ r : List String, (PointsParser.headless_parse_qcpass_record r).isOk = false) ∧
    (∀ record : List (String × PointsParser.PyVal),
      (PointsParser.headed_parse_qcpass_record record).isOk = false) ∧
    PointsParser.headless_parse_qcpass_record
        ["0", "13", "5.880338307654485", "12.20211975317036", "10.728294496728491"] =
      .error .missingRequiredArgument ∧
    PointsParser.headless_parse_all_qcpass
        [["0", "13", "5.880338307654485", "12.20211975317036", "10.728294496728491"]] =
      .error .missingRequiredArgument :=
  ⟨fun r => PointsParser.headless_parse_single_record_isOk_false r 5,
   PointsParser.headed_parse_qcpass_record_isOk_false,
   by with_unfolding_all rfl,
   by with_unfolding_all rfl⟩

/-- **C8, counterexample.** A headed fail row whose fields are all valid and
whose `failCode` is a string should, per the claim, parse successfully; it
raises the record-construction `TypeError` instead. -/
theorem c8_headed_qcfail_counterexample :
    PointsParser.headed_parse_qcfail_record
      [("traceIndex", .num 0), ("timeIndex", .num 1), ("z", .num 2), ("y", .num 3),
       ("x", .num 4), ("failCode", .str ("R"))] = .error .missingRequiredArgument := by
  with_unfolding_all rfl

/-- **C8, amended.** Headed fail parsing parses the row as a pass record and
then requires the `failCode` field to be string-typed, raising `TypeError`
for non-strings rather than coercing them; and since pass-record construction
omits the required `region_time` argument, fail parsing in fact fails for
every row. -/
theorem c8_headed_qcfail_validates_string :
    (∀ record : List (String × PointsParser.PyVal),
      (PointsParser.headed_parse_qcfail_record record).isOk = false) ∧
    (∀ s : String, PointsParser.validateFailCode (.str s) = .ok s) ∧
    (∀ q : ℚ, PointsParser.validateFailCode (.num q) = .error .nonStringFailCode) :=
  ⟨fun record => by
      obtain ⟨e, he⟩ :=
        isOk_false_iff.mp (PointsParser.headed_parse_qcpass_record_isOk_false record)
      unfold PointsParser.headed_parse_qcfail_record
      rw [he]
      rfl,
   fun _ => rfl,
   fun _ => rfl⟩

/-- **C3.** The claim says a points file with zero data rows yields a warning
and an empty layer; in fact both row parsers call `max()` on the empty
sequence of z-coordinates before the warning is reachable, so the build
raises `ValueError` for an empty pass or fail table. -/
theorem c3_empty_rows_raise :
    Reader.build_single_file_points_layer (("p.qcpass.csv").data) [] =
      .error .maxOfEmptySequence ∧
    Reader.build_single_file_points_layer (("p.qcfail.csv").data) [] =
      .error .maxOfEmptySequence := by
  constructor <;> with_unfolding_all rfl

namespace PointsParser

lemma headless_parse_single_record_wrong_length (r : List String) (exp_len : Nat)
    (h : r.length ≠ exp_len) :
    headless_parse_single_record r exp_len = .error (.lengthMismatch exp_len r.length) := by
  unfold headless_parse_single_record
  rw [if_pos h]

end PointsParser

namespace Reader

lemma parse_simple_record_wrong_length (r : List String) (exp_num_fields : Nat)
    (h : r.length ≠ exp_num_fields) :
    parse_simple_record r exp_num_fields = .error (.lengthMismatch exp_num_fields r.length) := by
  unfold parse_simple_record
  rw [if_pos h]

lemma parse_failed_row_short (r : List String) (h : r.length < 6) :
    parse_failed_row r = .error .indexError := by
  unfold parse_failed_row
  have h5 : r[5]? = none := List.getElem?_eq_none (by omega)
  simp only [pyIndex, h5]
  rfl

lemma parse_failed_row_long (r : List String) (h6 : 6 ≤ r.length) (hne : r.length ≠ 6) :
    parse_failed_row r = .error (.lengthMismatch 6 r.length) := by
  unfold parse_failed_row
  have h5 : r[5]? = some (r.get ⟨5, by omega⟩) := by
    rw [List.getElem?_eq_getElem (by omega)]
    rfl
  simp only [pyIndex, h5]
  rw [show ((Except.ok (r.get ⟨5, by omega⟩) : Except PyErr String) >>=
      fun qc => parse_simple_record r 6 >>= fun rec' => Except.ok (rec', qc)) =
      (parse_simple_record r 6 >>= fun rec' => Except.ok (rec', r.get ⟨5, by omega⟩)) from rfl]
  rw [parse_simple_record_wrong_length r 6 hne]
  rfl

end Reader

/-- **C4, counterexample.** A 5-field row fed to the fail-table parser
`reader.parse_failed` fails with an `IndexError` (the QC-code subscript at
index 5 precedes the length check), not with the length-mismatch error the
claim requires. -/
theorem c4_short_fail_row_counterexample :
    Reader.parse_failed [["0", "0", "1.0", "2.0", "3.0"]] = .error .indexError ∧
    Reader.parse_failed [["0", "0", "1.0", "2.0", "3.0"]] ≠
      .error (.lengthMismatch 6 5) := by
  constructor
  · with_unfolding_all rfl
  · with_unfolding_all decide

/-- **C4, amended.** In the headerless parser class, a pass row of length ≠ 5
or a fail row of length ≠ 6 fails with the length-mismatch error reporting
expected versus actual field count (likewise `reader.parse_simple_record`);
in `reader.parse_failed`, however, a fail row with fewer than 6 fields fails
with an `IndexError` from the QC-code subscript, and only rows with more than
6 fields fail with the length-mismatch error. -/
theorem c4_wrong_length_errors :
    (∀ r : List String, r.length ≠ 5 →
      PointsParser.headless_parse_qcpass_record r = .error (.lengthMismatch 5 r.length)) ∧
    (∀ r : List String, r.length ≠ 6 →
      PointsParser.headless_parse_qcfail_record r = .error (.lengthMismatch 6 r.length)) ∧
    (∀ r : List String, r.length ≠ 5 →
      Reader.parse_simple_record r 5 = .error (.lengthMismatch 5 r.length)) ∧
    (∀ r : List String, r.length < 6 →
      Reader.parse_failed_row r = .error .indexError) ∧
    (∀ r : List String, 6 ≤ r.length → r.length ≠ 6 →
      Reader.parse_failed_row r = .error (.lengthMismatch 6 r.length)) := by
  refine ⟨?_, ?_, ?_, ?_, ?_⟩
  · intro r h
    exact PointsParser.headless_parse_single_record_wrong_length r 5 h
  · intro r h
    unfold PointsParser.headless_parse_qcfail_record
    rw [PointsParser.headless_parse_single_record_wrong_length r 6 h]
    rfl
  · intro r h
    exact Reader.parse_simple_record_wrong_length r 5 h
  · exact Reader.parse_failed_row_short
  · exact Reader.parse_failed_row_long

/-- Witness for the amended C4 at concrete wrong-length rows. -/
theorem c4_wrong_length_errors_witness :
    (["0"] : List String).length ≠ 5 ∧
    PointsParser.headless_parse_qcpass_record ["0"] = .error (.lengthMismatch 5 1) ∧
    PointsParser.headless_parse_qcfail_record ["0"] = .error (.lengthMismatch 6 1) ∧
    Reader.parse_simple_record ["0"] 5 = .error (.lengthMismatch 5 1) ∧
    Reader.parse_failed_row ["0"] = .error .indexError ∧
    Reader.parse_failed_row ["0", "1", "2", "3", "4", "5", "6"] =
      .error (.lengthMismatch 6 7) :=
  ⟨by decide,
   c4_wrong_length_errors.1 ["0"] (by decide),
   c4_wrong_length_errors.2.1 ["0"] (by decide),
   c4_wrong_length_errors.2.2.1 ["0"] (by decide),
   c4_wrong_length_errors.2.2.2.1 ["0"] (by decide),
   c4_wrong_length_errors.2.2.2.2 ["0", "1", "2", "3", "4", "5", "6"] (by decide) (by decide)⟩

lemma coerceField_ok {α : Type} {o : Option α} {a : α} (h : coerceField o = .ok a) :
    o = some a := by
  cases o with
  | none => cases h
  | some b => cases h; rfl

lemma mkImagePoint3D_ok {z y x : ℚ} {pt : ImagePoint3D}
    (h : mkImagePoint3D z y x = .ok pt) :
    pt = ⟨x, y, z⟩ ∧ 0 ≤ x ∧ 0 ≤ y ∧ 0 ≤ z := by
  unfold mkImagePoint3D at h
  split at h
  · rename_i hc
    cases h
    exact ⟨rfl, hc.1, hc.2.1, hc.2.2⟩
  · cases h

namespace Reader

lemma fromZeroIndex_ok {n : Int} {m : Nat} (h : fromZeroIndex n = .ok m) :
    0 ≤ n ∧ m = n.toNat := by
  unfold fromZeroIndex at h
  split at h
  · rename_i hc
    cases h
    exact ⟨hc, rfl⟩
  · cases h

lemma list_length_five {α : Type} {r : List α} (h : r.length = 5) :
    ∃ a b c d e, r = [a, b, c, d, e] := by
  rcases r with _ | ⟨a, _ | ⟨b, _ | ⟨c, _ | ⟨d, _ | ⟨e, _ | ⟨f, t⟩⟩⟩⟩⟩⟩ <;>
    simp_all

/-- Successful `parse_simple_record` on a 5-field row: the complete shape of
the record in terms of the row's parsed fields. -/
lemma parse_simple_record_ok_shape {row : List String} {rec : PointRecord}
    (h : parse_simple_record row 5 = .ok rec) :
    ∃ a b c d e t tp z y x,
      row = [a, b, c, d, e] ∧
      pyInt a = some t ∧ 0 ≤ t ∧
      pyInt b = some tp ∧ 0 ≤ tp ∧
      pyFloat c = some z ∧ pyFloat d = some y ∧ pyFloat e = some x ∧
      0 ≤ x ∧ 0 ≤ y ∧ 0 ≤ z ∧
      rec = ⟨t.toNat, tp.toNat, ⟨x, y, z⟩⟩ := by
  unfold parse_simple_record at h
  split at h
  · cases h
  · rename_i hlen
    rw [Ne, not_not] at hlen
    obtain ⟨a, b, c, d, e, rfl⟩ := list_length_five hlen
    rw [show pyIndex [a, b, c, d, e] 0 = Except.ok a from rfl,
        show pyIndex [a, b, c, d, e] 1 = Except.ok b from rfl,
        show pyIndex [a, b, c, d, e] 2 = Except.ok c from rfl,
        show pyIndex [a, b, c, d, e] 3 = Except.ok d from rfl,
        show pyIndex [a, b, c, d, e] 4 = Except.ok e from rfl] at h
    obtain ⟨s0, hs0, h⟩ := bind_ok h
    cases hs0
    obtain ⟨t0, ht0, h⟩ := bind_ok h
    have ht0' := coerceField_ok ht0
    obtain ⟨trace, htr, h⟩ := bind_ok h
    obtain ⟨ht0nn, rfl⟩ := fromZeroIndex_ok htr
    obtain ⟨s1, hs1, h⟩ := bind_ok h
    cases hs1
    obtain ⟨tp0, htp0, h⟩ := bind_ok h
    have htp0' := coerceField_ok htp0
    obtain ⟨timepoint, htp, h⟩ := bind_ok h
    obtain ⟨htp0nn, rfl⟩ := fromZeroIndex_ok htp
    obtain ⟨s2, hs2, h⟩ := bind_ok h
    cases hs2
    obtain ⟨z, hz, h⟩ := bind_ok h
    have hz' := coerceField_ok hz
    obtain ⟨s3, hs3, h⟩ := bind_ok h
    cases hs3
    obtain ⟨y, hy, h⟩ := bind_ok h
    have hy' := coerceField_ok hy
    obtain ⟨s4, hs4, h⟩ := bind_ok h
    cases hs4
    obtain ⟨x, hx, h⟩ := bind_ok h
    have hx' := coerceField_ok hx
    obtain ⟨point, hpt, h⟩ := bind_ok h
    obtain ⟨rfl, hxnn, hynn, hznn⟩ := mkImagePoint3D_ok hpt
    cases h
    exact ⟨a, b, c, d, e, t0, tp0, z, y, x, rfl, ht0', ht0nn, htp0', htp0nn,
      hz', hy', hx', hxnn, hynn, hznn, rfl⟩

end Reader

/-- **C5.** Round-trip for the old (headerless) schema: flattening a
successfully parsed row reproduces exactly the numeric reading of the row's
fields in schema order `[traceId, timepoint, z, y, x]` (parsing performs no
z-truncation, so the reading is exact).  For the newer headed schema the
claimed round-trip is impossible: the headed parser cannot construct any
record, because its construction call omits the required `region_time`
field — it fails even on a fully valid row carrying a `regionIndex` column. -/
theorem c5_flatten_roundtrip :
    (∀ (row : List String) (rec : Reader.PointRecord),
      Reader.parse_simple_record row 5 = .ok rec →
      specNumericReadingOldSchema row = some rec.flatten) ∧
    PointsParser.headed_parse_qcpass_record
      [("traceIndex", .num 2), ("regionIndex", .num 9), ("timeIndex", .num 4),
       ("z", .num (1/2)), ("y", .num 3), ("x", .num 5)] =
      .error .missingRequiredArgument := by
  constructor
  · intro row rec h
    obtain ⟨a, b, c, d, e, t, tp, z, y, x, rfl, ha, htnn, hb, htpnn,
      hc, hd, he, hxnn, hynn, hznn, rfl⟩ := Reader.parse_simple_record_ok_shape h
    unfold specNumericReadingOldSchema
    dsimp only
    rw [ha, hb, hc, hd, he]
    show some [(t : ℚ), (tp : ℚ), z, y, x] =
      some (Reader.PointRecord.flatten ⟨t.toNat, tp.toNat, ⟨x, y, z⟩⟩)
    simp only [Reader.PointRecord.flatten, Option.some.injEq, List.cons.injEq,
      and_true]
    have h1 : ((t.toNat : ℕ) : ℚ) = (t : ℚ) := by
      exact_mod_cast Int.toNat_of_nonneg htnn
    have h2 : ((tp.toNat : ℕ) : ℚ) = (tp : ℚ) := by
      exact_mod_cast Int.toNat_of_nonneg htpnn
    exact ⟨h1.symm, h2.symm⟩
  · with_unfolding_all rfl

/-- Witness for C5's round-trip at the row `["3", "1", "0.5", "2.0", "7.25"]`. -/
theorem c5_flatten_roundtrip_witness :
    Reader.parse_simple_record ["3", "1", "0.5", "2.0", "7.25"] 5 =
      .ok ⟨3, 1, ⟨29/4, 2, 1/2⟩⟩ ∧
    specNumericReadingOldSchema ["3", "1", "0.5", "2.0", "7.25"] =
      some (Reader.PointRecord.flatten ⟨3, 1, ⟨29/4, 2, 1/2⟩⟩) :=
  ⟨by with_unfolding_all rfl,
   c5_flatten_roundtrip.1 ["3", "1", "0.5", "2.0", "7.25"] ⟨3, 1, ⟨29/4, 2, 1/2⟩⟩
     (by with_unfolding_all rfl)⟩

lemma ok_bind {ε α β : Type} (a : α) (f : α → Except ε β) :
    (Except.ok a >>= f : Except ε β) = f a := rfl

lemma le_foldl_max (t : List ℚ) (h : ℚ) :
    h ≤ t.foldl max h ∧ ∀ q ∈ t, q ≤ t.foldl max h := by
  induction t generalizing h with
  | nil => exact ⟨le_refl h, by intro q hq; cases hq⟩
  | cons a t ih =>
    refine ⟨le_trans (le_max_left h a) (ih (max h a)).1, ?_⟩
    intro q hq
    rcases List.mem_cons.mp hq with rfl | hmem
    · exact le_trans (le_max_right h q) (ih (max h q)).1
    · exact (ih (max h a)).2 q hmem

namespace Reader

lemma pyMax_ok_mem {l : List ℚ} {m : ℚ} (h : pyMax l = .ok m) :
    ∀ q ∈ l, q ≤ m := by
  cases l with
  | nil => cases h
  | cons a t =>
    cases h
    intro q hq
    rcases List.mem_cons.mp hq with rfl | hmem
    · exact (le_foldl_max t q).1
    · exact (le_foldl_max t a).2 q hmem

end Reader

lemma mapM_ok_forall {α β : Type} {f : α → Except PyErr β} :
    ∀ {l : List α} {out : List β}, l.mapM f = .ok out →
      ∀ b ∈ out, ∃ a ∈ l, f a = .ok b := by
  intro l
  induction l with
  | nil =>
    intro out h b hb
    cases h
    cases hb
  | cons a t ih =>
    intro out h b hb
    rw [List.mapM_cons] at h
    obtain ⟨x, hx, h⟩ := bind_ok h
    obtain ⟨xs, hxs, h⟩ := bind_ok h
    cases h
    rcases List.mem_cons.mp hb with rfl | hmem
    · exact ⟨a, List.mem_cons_self a t, hx⟩
    · obtain ⟨a', ha', hfa'⟩ := ih hxs b hmem
      exact ⟨a', List.mem_cons_of_mem a ha', hfa'⟩

lemma mapM_ok_of_forall {α β : Type} {f : α → Except PyErr β} {F : α → β} :
    ∀ {l : List α}, (∀ a ∈ l, f a = .ok (F a)) → l.mapM f = .ok (l.map F) := by
  intro l
  induction l with
  | nil => intro _; rfl
  | cons a t ih =>
    intro h
    rw [List.mapM_cons, h a (List.mem_cons_self a t), ok_bind,
      ih (fun x hx => h x (List.mem_cons_of_mem a hx)), ok_bind]
    rfl

lemma length_flatMap_const {α β : Type} {f : α → List β} {k : Nat} :
    ∀ {l : List α}, (∀ a ∈ l, (f a).length = k) →
      (l.flatMap f).length = l.length * k := by
  intro l
  induction l with
  | nil => intro _; simp
  | cons a t ih =>
    intro h
    rw [List.flatMap_cons, List.length_append, h a (List.mem_cons_self a t),
      ih (fun x hx => h x (List.mem_cons_of_mem a hx))]
    simp [Nat.succ_mul, Nat.add_comm]

namespace Reader

/-- Successful `parse_simple_record` yields a record whose coordinates passed
the external non-negativity validation. -/
lemma parse_simple_record_ok_nonneg {row : List String} {n : Nat} {rec : PointRecord}
    (h : parse_simple_record row n = .ok rec) :
    0 ≤ rec.point.x ∧ 0 ≤ rec.point.y ∧ 0 ≤ rec.point.z := by
  unfold parse_simple_record at h
  split at h
  · cases h
  · obtain ⟨s0, hs0, h⟩ := bind_ok h
    obtain ⟨t0, ht0, h⟩ := bind_ok h
    obtain ⟨trace, htr, h⟩ := bind_ok h
    obtain ⟨s1, hs1, h⟩ := bind_ok h
    obtain ⟨tp0, htp0, h⟩ := bind_ok h
    obtain ⟨timepoint, htp, h⟩ := bind_ok h
    obtain ⟨s2, hs2, h⟩ := bind_ok h
    obtain ⟨z, hz, h⟩ := bind_ok h
    obtain ⟨s3, hs3, h⟩ := bind_ok h
    obtain ⟨y, hy, h⟩ := bind_ok h
    obtain ⟨s4, hs4, h⟩ := bind_ok h
    obtain ⟨x, hx, h⟩ := bind_ok h
    obtain ⟨point, hpt, h⟩ := bind_ok h
    obtain ⟨rfl, hxnn, hynn, hznn⟩ := mkImagePoint3D_ok hpt
    cases h
    exact ⟨hxnn, hynn, hznn⟩

lemma parse_failed_row_ok_nonneg {row : List String} {p : PointRecord × String}
    (h : parse_failed_row row = .ok p) : 0 ≤ p.1.point.z := by
  unfold parse_failed_row at h
  obtain ⟨qc, hqc, h⟩ := bind_ok h
  obtain ⟨rec', hrec, h⟩ := bind_ok h
  cases h
  exact (parse_simple_record_ok_nonneg hrec).2.2

end Reader

/-- **C7.** For a successfully parsed non-empty fail table, the fail layer's
parameter mapping carries `size = 0` regardless of the number of points, and
its `failCodes` property lists, for every source row, that row's fail-code
once per expanded point (`⌊max_z⌋ + 1` copies, covering the row's single
center-flagged point and all its pillar points). -/
theorem c7_fail_layer_params (rows : List (List String))
    (pairs : List (Reader.PointRecord × String)) (max_z : ℚ)
    (pts : List Reader.PointRecord) (flags : List Bool)
    (params : Reader.FailLayerParams)
    (h1 : rows.mapM Reader.parse_failed_row = .ok pairs)
    (h2 : Reader.pyMax (pairs.map (fun p => p.1.get_z_coordinate)) = .ok max_z)
    (h3 : Reader.parse_failed rows = .ok (pts, flags, params)) :
    params.size = 0 ∧
    params.failCodes =
      pairs.flatMap (fun p => List.replicate (⌊max_z⌋.toNat + 1) p.2) ∧
    pts.length = pairs.length * (⌊max_z⌋.toNat + 1) ∧
    params.failCodes.length = pts.length := by
  unfold Reader.parse_failed at h3
  rw [h1, ok_bind, h2, ok_bind] at h3
  have hg : ∀ p ∈ pairs,
      (do
        let e ← Reader.expand_along_z p.1 max_z
        (Except.ok (e.1, e.2, List.replicate e.1.length p.2) :
          Except PyErr (List Reader.PointRecord × List Bool × List String))) =
      .ok ((List.range (⌊max_z⌋.toNat + 1)).map
             (fun i : Nat => p.1.with_truncated_z.with_new_z (i : Int)),
           (List.range (⌊max_z⌋.toNat + 1)).map
             (fun i : Nat => decide (i = ⌊p.1.point.z⌋.toNat)),
           List.replicate (⌊max_z⌋.toNat + 1) p.2) := by
    intro p hp
    obtain ⟨row, hrow, hpr⟩ := mapM_ok_forall h1 p hp
    have hznn := Reader.parse_failed_row_ok_nonneg hpr
    have hle : p.1.point.z ≤ max_z := by
      have : p.1.get_z_coordinate ∈ pairs.map (fun p => p.1.get_z_coordinate) :=
        List.mem_map_of_mem _ hp
      exact Reader.pyMax_ok_mem h2 _ this
    have hfl : ⌊p.1.point.z⌋ ≤ ⌊max_z⌋ := Int.floor_le_floor hle
    rw [Reader.expand_along_z_eq p.1 max_z hznn hfl, ok_bind]
    simp [List.length_map, List.length_range]
  rw [mapM_ok_of_forall hg, ok_bind] at h3
  simp only [Except.ok.injEq, Prod.mk.injEq] at h3
  obtain ⟨hpts, hflags, hparams⟩ := h3
  refine ⟨?_, ?_, ?_, ?_⟩
  · rw [← hparams]
  · rw [← hparams]
    dsimp only
    rw [List.flatMap_map]
  · rw [← hpts, List.flatMap_map]
    apply length_flatMap_const
    intro p _
    simp [List.length_map, List.length_range]
  · rw [← hparams, ← hpts]
    dsimp only
    rw [List.flatMap_map, List.flatMap_map]
    have hA := @length_flatMap_const (Reader.PointRecord × String) String
      (fun a => List.replicate (⌊max_z⌋.toNat + 1) a.2) (⌊max_z⌋.toNat + 1) pairs
      (fun p _ => by simp)
    have hB := @length_flatMap_const (Reader.PointRecord × String) Reader.PointRecord
      (fun a => (List.range (⌊max_z⌋.toNat + 1)).map
        (fun i : Nat => a.1.with_truncated_z.with_new_z (i : Int)))
      (⌊max_z⌋.toNat + 1) pairs
      (fun p _ => by simp [List.length_map, List.length_range])
    exact hA.trans hB.symm

/-- Witness for C7 at a concrete two-row fail table. -/
theorem c7_fail_layer_params_witness :
    ([["0", "0", "0.5", "0", "0", "S"], ["1", "2", "1.5", "1", "1", "R;z"]].mapM
        Reader.parse_failed_row =
      .ok [(⟨0, 0, ⟨0, 0, 1/2⟩⟩, "S"), (⟨1, 2, ⟨1, 1, 3/2⟩⟩, "R;z")]) ∧
    (Reader.pyMax
        ([((⟨0, 0, ⟨0, 0, 1/2⟩⟩ : Reader.PointRecord), "S"),
          (⟨1, 2, ⟨1, 1, 3/2⟩⟩, "R;z")].map (fun p => p.1.get_z_coordinate)) =
      .ok (3/2)) ∧
    (Reader.parse_failed [["0", "0", "0.5", "0", "0", "S"], ["1", "2", "1.5", "1", "1", "R;z"]] =
      .ok ([⟨0, 0, ⟨0, 0, 0⟩⟩, ⟨0, 0, ⟨0, 0, 1⟩⟩, ⟨1, 2, ⟨1, 1, 0⟩⟩, ⟨1, 2, ⟨1, 1, 1⟩⟩],
           [true, false, false, true],
           ⟨0, "{failCodes}", "#0C7BDC", ["S", "S", "R;z", "R;z"]⟩)) ∧
    ((⟨0, "{failCodes}", "#0C7BDC", ["S", "S", "R;z", "R;z"]⟩ :
        Reader.FailLayerParams).size = 0 ∧
     (⟨0, "{failCodes}", "#0C7BDC", ["S", "S", "R;z", "R;z"]⟩ :
        Reader.FailLayerParams).failCodes =
       [((⟨0, 0, ⟨0, 0, 1/2⟩⟩ : Reader.PointRecord), "S"),
        (⟨1, 2, ⟨1, 1, 3/2⟩⟩, "R;z")].flatMap
         (fun p => List.replicate (⌊(3/2 : ℚ)⌋.toNat + 1) p.2) ∧
     ([(⟨0, 0, ⟨0, 0, 0⟩⟩ : Reader.PointRecord), ⟨0, 0, ⟨0, 0, 1⟩⟩,
       ⟨1, 2, ⟨1, 1, 0⟩⟩, ⟨1, 2, ⟨1, 1, 1⟩⟩].length =
       [((⟨0, 0, ⟨0, 0, 1/2⟩⟩ : Reader.PointRecord), "S"),
        (⟨1, 2, ⟨1, 1, 3/2⟩⟩, "R;z")].length * (⌊(3/2 : ℚ)⌋.toNat + 1)) ∧
     (⟨0, "{failCodes}", "#0C7BDC", ["S", "S", "R;z", "R;z"]⟩ :
        Reader.FailLayerParams).failCodes.length =
       [(⟨0, 0, ⟨0, 0, 0⟩⟩ : Reader.PointRecord), ⟨0, 0, ⟨0, 0, 1⟩⟩,
        ⟨1, 2, ⟨1, 1, 0⟩⟩, ⟨1, 2, ⟨1, 1, 1⟩⟩].length) :=
  ⟨by with_unfolding_all rfl,
   by with_unfolding_all rfl,
   by with_unfolding_all rfl,
   c7_fail_layer_params
     [["0", "0", "0.5", "0", "0", "S"], ["1", "2", "1.5", "1", "1", "R;z"]]
     [(⟨0, 0, ⟨0, 0, 1/2⟩⟩, "S"), (⟨1, 2, ⟨1, 1, 3/2⟩⟩, "R;z")]
     (3/2)
     [⟨0, 0, ⟨0, 0, 0⟩⟩, ⟨0, 0, ⟨0, 0, 1⟩⟩, ⟨1, 2, ⟨1, 1, 0⟩⟩, ⟨1, 2, ⟨1, 1, 1⟩⟩]
     [true, false, false, true]
     ⟨0, "{failCodes}", "#0C7BDC", ["S", "S", "R;z", "R;z"]⟩
     (by with_unfolding_all rfl)
     (by with_unfolding_all rfl)
     (by with_unfolding_all rfl)⟩

namespace Reader

/-- Every key of the status dictionary is one of the two QC statuses, so
erasing both leaves nothing. -/
lemma dictErase_fail_pass (d : List (QCStatus × List Char)) :
    dictErase (dictErase d .fail) .pass = [] := by
  induction d with
  | nil => rfl
  | cons p t ih =>
    obtain ⟨k, v⟩ := p
    cases k <;> simp_all [dictErase, List.filter_cons] <;> exact ih

lemma dictSet_mem {d : List (QCStatus × List Char)} {k : QCStatus} {v : List Char}
    {p : QCStatus × List Char} (h : p ∈ dictSet d k v) : p ∈ d ∨ p = (k, v) := by
  unfold dictSet at h
  split at h
  · rcases List.mem_map.mp h with ⟨q, hq, hpq⟩
    by_cases hk : q.1 == k
    · right
      rw [if_pos hk] at hpq
      exact hpq.symm
    · left
      rw [if_neg hk] at hpq
      exact hpq ▸ hq
  · rcases List.mem_append.mp h with hd | hs
    · exact Or.inl hd
    · exact Or.inr (List.mem_singleton.mp hs)

/-- Invariant of the status-dictionary build loop: every entry's path comes
from `files` and classifies to the entry's status. -/
lemma buildStatusDict_inv (files : List (List Char)) :
    ∀ p ∈ buildStatusDict files,
      p.2 ∈ files ∧ QCStatus.from_csv_name p.2 = some p.1 := by
  have key : ∀ (l : List (List Char)) (init : List (QCStatus × List Char))
      (C : QCStatus × List Char → Prop),
      (∀ p ∈ init, C p) →
      (∀ f ∈ l, ∀ qc, QCStatus.from_csv_name f = some qc → C (qc, f)) →
      ∀ p ∈ l.foldl (fun d fp =>
          match QCStatus.from_csv_name fp with
          | some qc => dictSet d qc fp
          | none => d) init, C p := by
    intro l
    induction l with
    | nil => intro init C hinit _ p hp; exact hinit p hp
    | cons f t ih =>
      intro init C hinit hnew p hp
      rw [List.foldl_cons] at hp
      refine ih _ C ?_ (fun g hg => hnew g (List.mem_cons_of_mem f hg)) p hp
      intro q hq
      rcases hcase : QCStatus.from_csv_name f with _ | qc
      · rw [hcase] at hq
        exact hinit q hq
      · rw [hcase] at hq
        rcases dictSet_mem hq with hold | rfl
        · exact hinit q hold
        · exact hnew f (List.mem_cons_self f t) qc hcase
  intro p hp
  refine key files []
    (fun q => q.2 ∈ files ∧ QCStatus.from_csv_name q.2 = some q.1)
    (by intro q hq; cases hq) ?_ p hp
  intro f hf qc hqc
  exact ⟨hf, hqc⟩

lemma dictFind_some {d : List (QCStatus × List Char)} {k : QCStatus} {v : List Char}
    (h : dictFind d k = some v) : (k, v) ∈ d := by
  unfold dictFind at h
  rcases hfind : d.find? (fun p => p.1 == k) with _ | pr
  · rw [hfind] at h
    cases h
  · rw [hfind] at h
    cases h
    have hmem := List.mem_of_find?_eq_some hfind
    have hk := List.find?_some hfind
    have : pr.1 = k := by simpa using hk
    rw [show (k, pr.2) = pr by rw [← this]]
    exact hmem

/-- The fail path and pass path found by the classifier are distinct members
of `files` (a single name cannot classify as both statuses). -/
lemma status_paths_distinct {files : List (List Char)} {fp pp : List Char}
    (hf : dictFind (buildStatusDict files) .fail = some fp)
    (hp : dictFind (buildStatusDict files) .pass = some pp) :
    fp ∈ files ∧ pp ∈ files ∧ fp ≠ pp := by
  have hif := buildStatusDict_inv files _ (dictFind_some hf)
  have hip := buildStatusDict_inv files _ (dictFind_some hp)
  refine ⟨hif.1, hip.1, ?_⟩
  intro he
  rw [he] at hif
  rw [hif.2] at hip
  cases hip.2

lemma filter_two_of_three {a b c fp pp : List Char}
    (hab : a ≠ b) (hac : a ≠ c) (hbc : b ≠ c)
    (hfp : fp ∈ [a, b, c]) (hpp : pp ∈ [a, b, c]) (hne : fp ≠ pp) :
    ([a, b, c].filter (fun f => !(f == fp) && !(f == pp))).length = 1 := by
  simp only [List.mem_cons, List.not_mem_nil, or_false] at hfp hpp
  rcases hfp with rfl | rfl | rfl <;> rcases hpp with rfl | rfl | rfl <;>
    first
      | exact absurd rfl hne
      | simp_all [List.filter_cons, beq_iff_eq, ne_comm]

end Reader

/-- **C10.** With three pairwise-distinct files under the single key, the two
internal `RuntimeError` branches of `get_reader` are unreachable: the status
dictionary (keys drawn from the two-valued `QCStatus`) is always empty after
popping both statuses, and exactly one file always remains after removing the
two distinct matched status paths — so the classifier always returns a
result (possibly `none`) and never raises. -/
theorem c10_internal_errors_unreachable (sortKey : List Char → Option Nat)
    (fov : Nat) (a b c : List Char)
    (hab : a ≠ b) (hac : a ≠ c) (hbc : b ≠ c) :
    ∃ res, Reader.get_reader_core sortKey [(fov, [a, b, c])] = .ok res := by
  unfold Reader.get_reader_core
  dsimp only
  rw [if_neg (by simp)]
  rcases hf : Reader.dictFind (Reader.buildStatusDict [a, b, c]) .fail with _ | fp <;>
    rcases hp : Reader.dictFind (Reader.buildStatusDict [a, b, c]) .pass with _ | pp
  · exact ⟨none, rfl⟩
  · exact ⟨none, rfl⟩
  · exact ⟨none, rfl⟩
  · obtain ⟨hfmem, hpmem, hne⟩ := Reader.status_paths_distinct hf hp
    rw [Reader.dictErase_fail_pass]
    dsimp only
    rw [if_neg (by simp)]
    obtain ⟨w, hw⟩ := List.length_eq_one.mp
      (Reader.filter_two_of_three hab hac hbc hfmem hpmem hne)
    rw [hw]
    dsimp only
    split
    · exact ⟨none, rfl⟩
    · exact ⟨some ⟨w, fp, pp⟩, rfl⟩

/-- Witness for C10 at three concrete distinct file names. -/
theorem c10_internal_errors_unreachable_witness :
    (("a.qcfail.csv").data ≠ ("a.qcpass.csv").data) ∧
    (("a.qcfail.csv").data ≠ ("a.zarr").data) ∧
    (("a.qcpass.csv").data ≠ ("a.zarr").data) ∧
    (∃ res, Reader.get_reader_core (fun _ => some 1)
      [(1, [("a.qcfail.csv").data, ("a.qcpass.csv").data, ("a.zarr").data])] = .ok res) :=
  ⟨by decide, by decide, by decide,
   c10_internal_errors_unreachable (fun _ => some 1) 1
     (("a.qcfail.csv").data) (("a.qcpass.csv").data) (("a.zarr").data)
     (by decide) (by decide) (by decide)⟩

/-- **C6.** Every malformed directory shape the claim enumerates is
soft-skipped: not exactly one key, a key with other than 3 files, no
identifiable pass or fail table among them, or a remaining file that is not
the key's `.zarr` volume — in each case `get_reader` logs and returns `None`,
raising no exception. -/
theorem c6_classifier_soft_skips :
    (∀ (sortKey : List Char → Option Nat) (groups : List (Nat × List (List Char))),
      groups.length ≠ 1 → Reader.get_reader_core sortKey groups = .ok none) ∧
    (∀ (sortKey : List Char → Option Nat) (fov : Nat) (files : List (List Char)),
      files.length ≠ 3 → Reader.get_reader_core sortKey [(fov, files)] = .ok none) ∧
    (∀ (sortKey : List Char → Option Nat) (fov : Nat) (files : List (List Char)),
      files.length = 3 →
      (Reader.dictFind (Reader.buildStatusDict files) .fail = none ∨
        Reader.dictFind (Reader.buildStatusDict files) .pass = none) →
      Reader.get_reader_core sortKey [(fov, files)] = .ok none) ∧
    (∀ (sortKey : List Char → Option Nat) (fov : Nat) (files : List (List Char))
        (fp pp w : List Char),
      files.length = 3 →
      Reader.dictFind (Reader.buildStatusDict files) .fail = some fp →
      Reader.dictFind (Reader.buildStatusDict files) .pass = some pp →
      files.filter (fun f => !(f == fp) && !(f == pp)) = [w] →
      (Reader.pySuffix w ≠ (".zarr").data ∨ sortKey w ≠ some fov) →
      Reader.get_reader_core sortKey [(fov, files)] = .ok none) := by
  refine ⟨?_, ?_, ?_, ?_⟩
  · intro sortKey groups h
    rcases groups with _ | ⟨⟨fov, files⟩, _ | ⟨g2, gs⟩⟩
    · rfl
    · exact absurd rfl h
    · rfl
  · intro sortKey fov files h
    unfold Reader.get_reader_core
    dsimp only
    rw [if_pos h]
  · intro sortKey fov files h3 h
    unfold Reader.get_reader_core
    dsimp only
    rw [if_neg (by omega)]
    rcases h with hfn | hpn
    · rw [hfn]
    · rcases hx : Reader.dictFind (Reader.buildStatusDict files) .fail with _ | fp
      · rfl
      · rw [hpn]
  · intro sortKey fov files fp pp w h3 hf hp hfil hcond
    unfold Reader.get_reader_core
    dsimp only
    rw [if_neg (by omega), hf, hp]
    dsimp only
    rw [Reader.dictErase_fail_pass]
    try dsimp only
    rw [if_neg (by simp), hfil]
    try dsimp only
    rw [if_pos hcond]

/-- Witness for C6 at concrete directories exhibiting each rejected shape. -/
theorem c6_classifier_soft_skips_witness :
    (Reader.get_reader_core (fun _ => none) [] = .ok none) ∧
    (Reader.get_reader_core (fun _ => none) [(0, [])] = .ok none) ∧
    (Reader.get_reader_core (fun _ => none)
      [(0, [("x.csv").data, ("y.csv").data, ("z.csv").data])] = .ok none) ∧
    (Reader.get_reader_core (fun _ => none)
      [(0, [("a.qcfail.csv").data, ("a.qcpass.csv").data, ("b.txt").data])] = .ok none) :=
  ⟨c6_classifier_soft_skips.1 (fun _ => none) [] (by decide),
   c6_classifier_soft_skips.2.1 (fun _ => none) 0 [] (by decide),
   c6_classifier_soft_skips.2.2.1 (fun _ => none) 0
     [("x.csv").data, ("y.csv").data, ("z.csv").data] (by decide) (by decide),
   c6_classifier_soft_skips.2.2.2 (fun _ => none) 0
     [("a.qcfail.csv").data, ("a.qcpass.csv").data, ("b.txt").data]
     (("a.qcfail.csv").data) (("a.qcpass.csv").data) (("b.txt").data)
     (by decide) (by decide) (by decide) (by decide) (by decide)⟩
